import Mathlib

/-!
Verification of the AI-Resume-Analyzer application (src/app.py) against its
design specification.

The program is a single-page tool: a PDF résumé and a job description are
turned into one prompt, a hosted model call returns JSON that is decoded into
a nine-field profile dictionary, which is displayed and rendered to a PDF.

The embedding below follows src/app.py line by line:
* `OptimizedProfile` — the pydantic schema (lines 15–24);
* `PdfState` / `ResumePDF.*` — the FPDF-based renderer (lines 27–67), modelled
  as a state-passing trace of layout operations, each operation recording the
  ambient font, fill colour and margins at the moment of the call;
* `promptTemplate`, `chainInvoke`, `generateStep` — the generate button block
  (lines 83–101), with the external collaborators (pdfminer text extraction,
  the hosted model) passed in as function parameters;
* `startup` — the module-level script (lines 1–81);
* `resultPane` / `col2Output` — the result column (lines 103–120).
-/

/-! ## Profile schema (src/app.py lines 15–24)

`OptimizedProfile(BaseModel)`: nine declared fields.  The `Field` descriptions
("ATS match score from 0-100", …) are prose sent to the model, not
constraints: pydantic enforces nothing beyond what a parser chooses to apply.
-/

structure OptimizedProfile where
  name : String
  email : String
  phone : String
  summary : String
  skills : List String
  experience : List String
  education : List String
  ats_score : Int
  optimization_points : List String
deriving Repr, DecidableEq

/-! ## PDF renderer (src/app.py lines 27–67)

The FPDF library is external; what belongs to this program is the sequence of
layout calls `ResumePDF` makes and the state (font, fill colour, margins) each
call sees.  We model an FPDF object as a `PdfState` and record every
`cell` / `multi_cell` / `ln` call as a `LayoutOp` snapshot carrying that
state.  Text wrapping itself is the library's contract: `multi_cell(w, …)`
wraps its text within width `w`, so the snapshot's `w` field is what the
margin-safety property is about.  All geometry in the source is integral
(A4 portrait, millimetre units: page width 210; margins 15; the FPDF
defaults of 1 cm side margins and a 2 cm bottom page-break margin are
modelled as 10 and 20 — they are overwritten before any layout call).
-/

inductive OpKind where
  | cellK
  | multiCellK
  | lnK
deriving Repr, DecidableEq

structure LayoutOp where
  kind : OpKind
  w : Nat
  h : Nat
  txt : String
  align : String
  fill : Bool
  fillColor : Nat × Nat × Nat
  fontFamily : String
  fontStyle : String
  fontSize : Nat
  lMargin : Nat
  tMargin : Nat
  rMargin : Nat
  bMargin : Nat
  pageWidth : Nat
deriving Repr, DecidableEq

structure PdfState where
  fontFamily : String
  fontStyle : String
  fontSize : Nat
  textColor : Nat × Nat × Nat
  fillColor : Nat × Nat × Nat
  lMargin : Nat
  tMargin : Nat
  rMargin : Nat
  bMargin : Nat
  autoBreak : Bool
  pageWidth : Nat
  pages : Nat
  ops : List LayoutOp
deriving Repr, DecidableEq

/-- `FPDF()` defaults (A4 portrait, mm): page width 210, side/top margins
1 cm, bottom auto-page-break margin 2 cm, auto page break on, no page yet. -/
def initPdf : PdfState :=
  { fontFamily := "", fontStyle := "", fontSize := 12
    textColor := (0, 0, 0), fillColor := (0, 0, 0)
    lMargin := 10, tMargin := 10, rMargin := 10, bMargin := 20
    autoBreak := true, pageWidth := 210, pages := 0, ops := [] }

def setFont (s : PdfState) (family style : String) (size : Nat) : PdfState :=
  { s with fontFamily := family, fontStyle := style, fontSize := size }

def setTextColor (s : PdfState) (r g b : Nat) : PdfState :=
  { s with textColor := (r, g, b) }

def setFillColor (s : PdfState) (r g b : Nat) : PdfState :=
  { s with fillColor := (r, g, b) }

def setMargins (s : PdfState) (left top right : Nat) : PdfState :=
  { s with lMargin := left, tMargin := top, rMargin := right }

def setAutoPageBreak (s : PdfState) (auto : Bool) (margin : Nat) : PdfState :=
  { s with autoBreak := auto, bMargin := margin }

/-- Snapshot of the ambient state taken at a layout call. -/
def snap (s : PdfState) (k : OpKind) (w h : Nat) (txt align : String)
    (fill : Bool) : LayoutOp :=
  { kind := k, w := w, h := h, txt := txt, align := align, fill := fill
    fillColor := s.fillColor, fontFamily := s.fontFamily
    fontStyle := s.fontStyle, fontSize := s.fontSize
    lMargin := s.lMargin, tMargin := s.tMargin, rMargin := s.rMargin
    bMargin := s.bMargin, pageWidth := s.pageWidth }

/-- `self.cell(w, h, txt, ln=True, align=…, fill=…)`.  Every `cell` call in
the source uses `ln=True`, so the cursor is back at the left margin after
each one; `w = 0` is the FPDF convention for extending to the right margin. -/
def cell (s : PdfState) (w h : Nat) (txt : String) (align : String)
    (fill : Bool) : PdfState :=
  { s with ops := s.ops ++ [snap s .cellK w h txt align fill] }

/-- `self.multi_cell(w, h, txt)`: the library wraps `txt` into lines of width
at most `w`, starting at the left margin. -/
def multiCell (s : PdfState) (w h : Nat) (txt : String) : PdfState :=
  { s with ops := s.ops ++ [snap s .multiCellK w h txt "" false] }

/-- `self.ln(h)`: vertical move, no text placed. -/
def lnMove (s : PdfState) (h : Nat) : PdfState :=
  { s with ops := s.ops ++ [snap s .lnK 0 h "" "" false] }

namespace ResumePDF

/-- `ResumePDF.header` (lines 28–34).  The three `self.candidate_name` /
`self.email` / `self.phone` attributes are set by `generate` before
`add_page` triggers this hook, so they are passed as arguments here. -/
def header (candidate_name email phone : String) (s : PdfState) : PdfState :=
  let s := setFont s "helvetica" "B" 18
  let s := setTextColor s 33 37 41
  let s := cell s 0 10 candidate_name.toUpper "C" false
  let s := setFont s "helvetica" "" 9
  let s := cell s 0 5 (email ++ " | " ++ phone) "C" false
  lnMove s 5

/-- `self.add_page()` (line 47): starts a page and invokes the `header` hook. -/
def addPage (candidate_name email phone : String) (s : PdfState) : PdfState :=
  header candidate_name email phone { s with pages := s.pages + 1 }

/-- `ResumePDF.section_header` (lines 36–40): bold 11 pt title on a shaded
bar (`fill=True`, fill colour 240,242,246). -/
def section_header (s : PdfState) (title : String) (width : Nat) : PdfState :=
  let s := setFont s "helvetica" "B" 11
  let s := setFillColor s 240 242 246
  let s := cell s width 8 ("  " ++ title) "" true
  lnMove s 2

/-- A section body is either a plain string or a list of entries
(the `isinstance(content, list)` dispatch at line 61). -/
inductive Content where
  | text (t : String)
  | items (l : List String)
deriving Repr

/-- Body of the `isinstance` list branch (lines 62–64): each entry becomes one
`multi_cell` with prefix `"- "`, followed by `ln(1)`. -/
def emitItems (width : Nat) : List String → PdfState → PdfState
  | [], s => s
  | item :: rest, s =>
    emitItems width rest (lnMove (multiCell s width 6 ("- " ++ item)) 1)

/-- One iteration of the `for title, content in sections` loop (lines 58–67). -/
def emitSection (width : Nat) (s : PdfState) (sec : String × Content) : PdfState :=
  let s := section_header s sec.1 width
  let s := setFont s "helvetica" "" 10
  let s :=
    match sec.2 with
    | .items l => emitItems width l s
    | .text t => multiCell s width 6 t
  lnMove s 4

/-- `ResumePDF.generate` (lines 42–67).  Margins are set to 15 on the left,
top and right before the page is added; the auto page break keeps a 15-unit
bottom margin; every body cell uses `eff_width = self.w - 30`. -/
def generate (data : OptimizedProfile) (s : PdfState) : PdfState :=
  let s := setMargins s 15 15 15
  let s := addPage data.name data.email data.phone s
  let s := setAutoPageBreak s true 15
  let eff_width := s.pageWidth - 30
  let sections : List (String × Content) :=
    [("PROFESSIONAL SUMMARY", .text data.summary),
     ("TECHNICAL EXPERTISE", .text (String.intercalate ", " data.skills)),
     ("SELECTED EXPERIENCE", .items data.experience),
     ("EDUCATION", .items data.education)]
  sections.foldl (emitSection eff_width) s

end ResumePDF

/-! ## Model responses and JSON decoding (src/app.py lines 88, 100–101)

`JsonOutputParser(pydantic_object=OptimizedProfile)` decodes the model text
as JSON and returns the decoded value — a plain dict — unchanged.  The
`pydantic_object` argument only feeds `get_format_instructions()`; the parser
applies NO schema validation (missing fields, wrong types and out-of-range
scores all pass through), which is why the rest of the script accesses the
result with `data['name']`-style dict lookups.  A response that is not valid
JSON raises `OutputParserException`.

We model a decoded JSON document as `JsonValue` and a model response as
`Option JsonValue`: `some v` is a response whose text decodes to `v`,
`none` is a response that is not valid JSON.
-/

inductive JsonValue where
  | str (s : String)
  | int (n : Int)
  | arr (xs : List JsonValue)
  | obj (fields : List (String × JsonValue))
deriving Repr

/-- Python dict lookup `d[key]` on a decoded JSON object: `none` models the
`KeyError` on a missing key (or a lookup on a non-dict value). -/
def JsonValue.get (v : JsonValue) (key : String) : Option JsonValue :=
  match v with
  | .obj fields => (fields.find? (fun kv => kv.1 == key)).map (fun kv => kv.2)
  | _ => none

/-- Failure modes of the generate button block. -/
inductive GenFailure where
  | configError
  | inferenceError
  | parseError
deriving Repr, DecidableEq

/-- Process environment: the one secret the app depends on, `GROQ_API_KEY`
(consumed by the `ChatGroq` client at line 87). -/
structure Env where
  groqApiKey : Option String

/-- Session state: `st.session_state.data` (lines 73–74, 101), holding the
decoded profile dict of the last successful generate, if any.  `none` is the
Idle state of the design, `some d` the Populated state. -/
structure SessionState where
  data : Option JsonValue
deriving Repr

/-- `parser.get_format_instructions()` (external langchain helper): a fixed
string derived from the nine schema field descriptions.  Its exact text is
produced by the library and no claim depends on it; the model only needs it
to be a constant. -/
def getFormatInstructions : String := "format_instructions"

/-- `ChatPromptTemplate.from_template(...)` applied to
`{text, jd, format_instructions}` (lines 91–98): plain substitution of the
three inputs into the fixed template. -/
def promptTemplate (text jd format_instructions : String) : String :=
  "Act as a Senior Executive Recruiter. Your goal is to maximize the ATS score.\n"
    ++ "1. Use the \x27Action + Result\x27 framework for every experience bullet.\n"
    ++ "2. Include quantifiable metrics (%, $, time) for impact.\n"
    ++ "3. Semantically group skills (e.g., \x27Cloud: AWS, Azure\x27).\n"
    ++ "4. Extract real name and contact info from the resume.\n\n"
    ++ "Resume: " ++ text ++ "\nJD: " ++ jd ++ "\n" ++ format_instructions

/-- `chain = prompt | llm | parser; chain.invoke(...)` (lines 100–101).
The hosted model is external and passed in as `llm`: `.error ()` is a failed
call (network error, timeout, rate limit), `.ok r` a response `r`.  The
parser step decodes the response as JSON and returns the decoded dict
unchanged — no schema validation of any kind (see module comment above). -/
def chainInvoke (llm : String → Except Unit (Option JsonValue))
    (text jd : String) : Except GenFailure JsonValue :=
  match llm (promptTemplate text jd getFormatInstructions) with
  | .error _ => .error .inferenceError
  | .ok none => .error .parseError
  | .ok (some v) => .ok v

/-- Result of one generate button press: the session state afterwards, the
number of calls made to the hosted model, and the failure surfaced to
Streamlit, if any. -/
structure GenResult where
  state : SessionState
  llmCalls : Nat
  failure : Option GenFailure
deriving Repr

/-- The generate button block (lines 83–101).  `uploaded_file` is `none` when
no file was uploaded (Python `None`, falsy); an empty `job_desc` string is
falsy too, so `if uploaded_file and job_desc:` skips the body unless both are
present.  On the call path: pdfminer extracts `raw_text` (external,
parameter `extractText`), `ChatGroq(...)` is constructed — the client
validates the credential at construction and raises when `GROQ_API_KEY` is
absent, before any model call — and `chain.invoke` runs.  A raised exception
propagates to Streamlit: the assignment at line 101 is skipped and
`st.session_state.data` keeps its previous value. -/
def generateStep (env : Env) (extractText : List Nat → String)
    (llm : String → Except Unit (Option JsonValue))
    (uploaded_file : Option (List Nat)) (job_desc : String)
    (st : SessionState) : GenResult :=
  match uploaded_file with
  | none => ⟨st, 0, none⟩
  | some fileBytes =>
    if job_desc = "" then ⟨st, 0, none⟩
    else
      let raw_text := extractText fileBytes
      match env.groqApiKey with
      | none => ⟨st, 0, some .configError⟩
      | some _ =>
        match chainInvoke llm raw_text job_desc with
        | .error e => ⟨st, 1, some e⟩
        | .ok v => ⟨⟨some v⟩, 1, none⟩

/-- Module-level startup of src/app.py (lines 1–81): imports, `load_dotenv()`
(loads the environment, validates nothing), page config, title,
`st.session_state.data` initialised to `None` when absent, column layout and
the input widgets.  No line reads or checks the GROQ credential — it is first
consumed at line 87 inside the generate handler — so startup succeeds
whatever the environment contains. -/
def startup (env : Env) (prior : Option SessionState) :
    Except String SessionState :=
  match env, prior with
  | _, some st => .ok st
  | _, none => .ok { data := none }

/-- Score line of the result pane (line 107):
`st.subheader(f"... {data['ats_score']}%")` — whatever integer sits in the
dict is displayed, with no range check anywhere between parser and display. -/
def displayedScore (st : SessionState) : Option JsonValue :=
  st.data.bind (fun d => d.get "ats_score")

/-- The file output and download offer of the result pane (lines 113–118):
`pdf.output("optimized.pdf")` writes to the fixed working-directory path
`"optimized.pdf"`, and the download button suggests
`f"{data['name']}_ATS_Optimized.pdf"`.  Returns
(output path, suggested download name, rendered document). -/
def col2Output (data : OptimizedProfile) : String × String × PdfState :=
  ("optimized.pdf", data.name ++ "_ATS_Optimized.pdf",
    ResumePDF.generate data initPdf)

/-! ## Characterisation of the rendered layout trace

`ResumePDF.generate` touches margins, fonts and colours at fixed program
points, so the trace of layout operations it produces has a closed form:
the named operations below, assembled by `generate_ops_eq`.  All of them
carry left/top/right margins 15 and page width 210; the two header cells are
placed while the bottom page-break margin is still the 2 cm library default
(20), everything later under the 15-unit bottom margin of line 48. -/

/-- Centered name cell of the page header (line 31). -/
def hdrNameOp (name : String) : LayoutOp :=
  { kind := .cellK, w := 0, h := 10, txt := name.toUpper, align := "C"
    fill := false, fillColor := (0, 0, 0)
    fontFamily := "helvetica", fontStyle := "B", fontSize := 18
    lMargin := 15, tMargin := 15, rMargin := 15, bMargin := 20
    pageWidth := 210 }

/-- Centered contact cell of the page header (line 33). -/
def hdrContactOp (email phone : String) : LayoutOp :=
  { kind := .cellK, w := 0, h := 5, txt := email ++ " | " ++ phone
    align := "C", fill := false, fillColor := (0, 0, 0)
    fontFamily := "helvetica", fontStyle := "", fontSize := 9
    lMargin := 15, tMargin := 15, rMargin := 15, bMargin := 20
    pageWidth := 210 }

/-- `self.ln(5)` closing the page header (line 34). -/
def hdrLnOp : LayoutOp :=
  { kind := .lnK, w := 0, h := 5, txt := "", align := ""
    fill := false, fillColor := (0, 0, 0)
    fontFamily := "helvetica", fontStyle := "", fontSize := 9
    lMargin := 15, tMargin := 15, rMargin := 15, bMargin := 20
    pageWidth := 210 }

/-- Shaded section header bar (line 39): width `eff_width = 210 - 30`,
`fill=True` with fill colour (240, 242, 246), bold 11 pt. -/
def shadedBarOp (title : String) : LayoutOp :=
  { kind := .cellK, w := 180, h := 8, txt := "  " ++ title, align := ""
    fill := true, fillColor := (240, 242, 246)
    fontFamily := "helvetica", fontStyle := "B", fontSize := 11
    lMargin := 15, tMargin := 15, rMargin := 15, bMargin := 15
    pageWidth := 210 }

/-- `self.ln(2)` after a section header bar (line 40). -/
def barLnOp : LayoutOp :=
  { kind := .lnK, w := 0, h := 2, txt := "", align := ""
    fill := false, fillColor := (240, 242, 246)
    fontFamily := "helvetica", fontStyle := "B", fontSize := 11
    lMargin := 15, tMargin := 15, rMargin := 15, bMargin := 15
    pageWidth := 210 }

/-- A body `multi_cell` (lines 63 and 66): width `eff_width`, regular 10 pt. -/
def bodyTextOp (t : String) : LayoutOp :=
  { kind := .multiCellK, w := 180, h := 6, txt := t, align := ""
    fill := false, fillColor := (240, 242, 246)
    fontFamily := "helvetica", fontStyle := "", fontSize := 10
    lMargin := 15, tMargin := 15, rMargin := 15, bMargin := 15
    pageWidth := 210 }

/-- `self.ln(h)` inside or after a section body (lines 64 and 67). -/
def bodyLnOp (h : Nat) : LayoutOp :=
  { kind := .lnK, w := 0, h := h, txt := "", align := ""
    fill := false, fillColor := (240, 242, 246)
    fontFamily := "helvetica", fontStyle := "", fontSize := 10
    lMargin := 15, tMargin := 15, rMargin := 15, bMargin := 15
    pageWidth := 210 }

/-- Trace of a list-valued section body: per entry, one `"- "`-prefixed
`multi_cell` and one `ln(1)`. -/
def itemOps (items : List String) : List LayoutOp :=
  items.flatMap (fun it => [bodyTextOp ("- " ++ it), bodyLnOp 1])

/-! ## Concrete sample data

The example scenario of the specification (§8): Jane Doe's résumé against a
Python backend JD, with a stub inference endpoint. -/

def sampleProfile : OptimizedProfile :=
  { name := "Jane Doe", email := "jane@x.com", phone := "555-1234"
    summary := "Python backend engineer", skills := ["Python", "APIs"]
    experience := ["Built API serving 1M req/day"]
    education := ["B.S. Computer Science"], ats_score := 82
    optimization_points := ["Added quantifiable metric"] }

/-- The sample stub response of spec §8 as the decoded JSON dict the parser
hands back: nine well-formed fields, score 82. -/
def sampleDict : JsonValue :=
  .obj [("name", .str "Jane Doe"), ("email", .str "jane@x.com"),
        ("phone", .str "555-1234"), ("summary", .str "Python backend engineer"),
        ("skills", .arr [.str "Python", .str "APIs"]),
        ("experience", .arr [.str "Built API serving 1M req/day"]),
        ("education", .arr [.str "B.S. Computer Science"]),
        ("ats_score", .int 82),
        ("optimization_points", .arr [.str "Added quantifiable metric"])]

/-- A profile dict left in the session by an earlier successful generate. -/
def oldDict : JsonValue :=
  .obj [("name", .str "Old Candidate"), ("email", .str "old@x.com"),
        ("phone", .str "000"), ("summary", .str "old summary"),
        ("skills", .arr []), ("experience", .arr []), ("education", .arr []),
        ("ats_score", .int 50), ("optimization_points", .arr [])]

/-- A model response that is syntactically valid JSON with all nine fields of
the right type, except that `ats_score` is 150, outside [0, 100]. -/
def badResponse : JsonValue :=
  .obj [("name", .str "Jane Doe"), ("email", .str "jane@x.com"),
        ("phone", .str "555-1234"), ("summary", .str "Python backend engineer"),
        ("skills", .arr [.str "Python"]),
        ("experience", .arr [.str "Built API serving 1M req/day"]),
        ("education", .arr [.str "B.S. Computer Science"]),
        ("ats_score", .int 150),
        ("optimization_points", .arr [.str "Added quantifiable metric"])]

/-- The margin-safety contract of spec §4.3 for one layout operation: at the
moment of the call all four margins are at least 15, and a body `multi_cell`
wraps within the printable width (page width minus left and right margins). -/
def marginOk (op : LayoutOp) : Prop :=
  15 ≤ op.lMargin ∧ 15 ≤ op.tMargin ∧ 15 ≤ op.rMargin ∧ 15 ≤ op.bMargin ∧
    (op.kind = OpKind.multiCellK →
      op.w = op.pageWidth - op.lMargin - op.rMargin)

instance (op : LayoutOp) : Decidable (marginOk op) := by
  unfold marginOk
  infer_instance

theorem emitItems_eq (w : Nat) (items : List String) (s : PdfState) :
    ResumePDF.emitItems w items s =
      { s with ops := (s.ops ++ items.flatMap (fun it =>
          [snap s .multiCellK w 6 ("- " ++ it) "" false,
           snap s .lnK 0 1 "" "" false])) } := by
  induction items generalizing s with
  | nil => simp [ResumePDF.emitItems]
  | cons it rest ih =>
    simp only [ResumePDF.emitItems]
    rw [ih]
    simp [multiCell, lnMove, snap, List.append_assoc]

/-- The shaded header bars of a document: the layout cells drawn with
`fill=True`. -/
def headerBars (s : PdfState) : List LayoutOp :=
  s.ops.filter (fun op => op.fill)

/-- The body text of a document: its `multi_cell` operations. -/
def bodyCells (s : PdfState) : List LayoutOp :=
  s.ops.filter (fun op => op.kind == OpKind.multiCellK)

/-- Closed form of the full layout trace produced by `ResumePDF.generate`
on a fresh `FPDF()` object: the two header cells, then the four sections in
their fixed order. -/
theorem generate_ops_eq (p : OptimizedProfile) :
    (ResumePDF.generate p initPdf).ops =
      [hdrNameOp p.name, hdrContactOp p.email p.phone, hdrLnOp]
      ++ [shadedBarOp "PROFESSIONAL SUMMARY", barLnOp,
          bodyTextOp p.summary, bodyLnOp 4]
      ++ [shadedBarOp "TECHNICAL EXPERTISE", barLnOp,
          bodyTextOp (String.intercalate ", " p.skills), bodyLnOp 4]
      ++ [shadedBarOp "SELECTED EXPERIENCE", barLnOp]
      ++ itemOps p.experience ++ [bodyLnOp 4]
      ++ [shadedBarOp "EDUCATION", barLnOp]
      ++ itemOps p.education ++ [bodyLnOp 4] := by
  simp [ResumePDF.generate, ResumePDF.addPage, ResumePDF.header,
    ResumePDF.section_header, ResumePDF.emitSection, emitItems_eq,
    initPdf, setMargins, setAutoPageBreak, setFont, setTextColor,
    setFillColor, cell, multiCell, lnMove, snap,
    hdrNameOp, hdrContactOp, hdrLnOp, shadedBarOp, barLnOp, bodyTextOp,
    bodyLnOp, itemOps, List.append_assoc]

/-! ## Claim theorems -/

/-- C4: for every Profile rendered, every layout call of the produced trace
sees margins of at least 15 units on all four sides already in force (the
trace snapshots record the margins at the moment of each call, so this is
exactly "margins set before any text layout call"), and every body-text
`multi_cell` wraps its text within the printable width, which equals the
page width minus the left and right margins. -/
theorem all_marginOk (p : OptimizedProfile) :
    ((ResumePDF.generate p initPdf).ops).all
      (fun op => decide (marginOk op)) = true := by
  rw [generate_ops_eq]
  simp [List.all_append, List.all_flatMap, itemOps, marginOk, hdrNameOp,
    hdrContactOp, hdrLnOp, shadedBarOp, barLnOp, bodyTextOp, bodyLnOp]

theorem generate_respects_margins (p : OptimizedProfile) :
    ∀ op ∈ (ResumePDF.generate p initPdf).ops, marginOk op := by
  intro op hmem
  exact of_decide_eq_true (List.all_eq_true.1 (all_marginOk p) op hmem)

/-- Witness for C4 at the sample profile: the summary body cell of the
rendered sample document satisfies the margin contract. -/
theorem generate_respects_margins_witness :
    marginOk (bodyTextOp sampleProfile.summary) :=
  generate_respects_margins sampleProfile (bodyTextOp sampleProfile.summary)
    (by rw [generate_ops_eq]; simp)

theorem itemOps_filter_fill (l : List String) :
    (itemOps l).filter (fun op => op.fill) = [] := by
  induction l with
  | nil => rfl
  | cons it rest ih => simp [itemOps, bodyTextOp, bodyLnOp, List.filter_append] at ih ⊢; exact ih

theorem itemOps_filter_body (l : List String) :
    (itemOps l).filter (fun op => op.kind == OpKind.multiCellK) =
      l.map (fun it => bodyTextOp ("- " ++ it)) := by
  induction l with
  | nil => rfl
  | cons it rest ih => simp [itemOps, bodyTextOp, bodyLnOp, List.filter_append] at ih ⊢; exact ih

/-- C5: the rendered document body is exactly four sections in the fixed
order Professional Summary, Technical Expertise, (Selected) Experience,
Education: the shaded bars (`fill=True`, fill colour 240,242,246, the only
filled cells of the whole trace) carry exactly those four titles in order,
and the body text consists, in order, of the summary paragraph, the skills
joined by a comma into one paragraph, then one `"- "`-prefixed line per
experience bullet and per education entry — all set at 10 pt. -/
theorem generate_four_sections (p : OptimizedProfile) :
    (headerBars (ResumePDF.generate p initPdf)).map
        (fun op => (op.txt, op.fillColor, op.fontSize)) =
      [("  PROFESSIONAL SUMMARY", (240, 242, 246), 11),
       ("  TECHNICAL EXPERTISE", (240, 242, 246), 11),
       ("  SELECTED EXPERIENCE", (240, 242, 246), 11),
       ("  EDUCATION", (240, 242, 246), 11)] ∧
    (bodyCells (ResumePDF.generate p initPdf)).map
        (fun op => (op.txt, op.fontSize)) =
      [(p.summary, 10), (String.intercalate ", " p.skills, 10)]
        ++ p.experience.map (fun e => ("- " ++ e, 10))
        ++ p.education.map (fun e => ("- " ++ e, 10)) := by
  unfold headerBars bodyCells
  rw [generate_ops_eq]
  constructor <;>
    simp [List.filter_append, itemOps_filter_fill, itemOps_filter_body,
      hdrNameOp, hdrContactOp, hdrLnOp, shadedBarOp, barLnOp, bodyTextOp,
      bodyLnOp, Function.comp_def]

/-- C6: the document's header block is the candidate's name converted to
upper case, centered, followed by a centered contact line whose text joins
email and phone as `email | phone` — these are the first two cells of the
layout trace, placed before anything else. -/
theorem generate_header_block (p : OptimizedProfile) :
    ((ResumePDF.generate p initPdf).ops.take 2).map
        (fun op => (op.txt, op.align, op.kind)) =
      [(p.name.toUpper, "C", OpKind.cellK),
       (p.email ++ " | " ++ p.phone, "C", OpKind.cellK)] := by
  rw [generate_ops_eq]
  simp [hdrNameOp, hdrContactOp]

/-- C1 (code defect): a model response that is valid JSON with `ats_score`
150 — outside [0, 100] — is NOT rejected by the inference-and-parse step.
`JsonOutputParser` returns the decoded dict unchanged, the generate block
stores it as the session Profile, and the result pane then reports the
out-of-range score: no ParseError fires before the renderer, contradicting
the specified contract. -/
theorem out_of_range_score_not_rejected :
    chainInvoke (fun _ => .ok (some badResponse)) "resume" "jd"
        = .ok badResponse ∧
    generateStep ⟨some "key"⟩ (fun _ => "resume")
        (fun _ => .ok (some badResponse)) (some [1]) "jd" ⟨none⟩
        = ⟨⟨some badResponse⟩, 1, none⟩ ∧
    displayedScore ⟨some badResponse⟩ = some (.int 150) ∧
    ¬ ((0 : Int) ≤ 150 ∧ (150 : Int) ≤ 100) := by
  refine ⟨rfl, rfl, rfl, by decide⟩

/-- C2 (code defect): whenever a generate attempt surfaces a failure — the
inference call or the parse — the session state afterwards is exactly the
state before: a previously stored Profile is silently kept stale instead of
the state returning to Idle (or a distinct Errored state) as specified. -/
theorem failure_keeps_stale_profile (env : Env)
    (extractText : List Nat → String)
    (llm : String → Except Unit (Option JsonValue))
    (uploaded_file : Option (List Nat)) (job_desc : String)
    (st : SessionState) (e : GenFailure)
    (h : (generateStep env extractText llm uploaded_file job_desc st).failure
          = some e) :
    (generateStep env extractText llm uploaded_file job_desc st).state = st := by
  cases uploaded_file with
  | none => rfl
  | some f =>
    by_cases hjd : job_desc = ""
    · simp [generateStep, hjd]
    · cases hk : env.groqApiKey with
      | none => simp [generateStep, hjd, hk]
      | some k =>
        cases hc : chainInvoke llm (extractText f) job_desc with
        | error e2 => simp [generateStep, hjd, hk, hc]
        | ok v => simp [generateStep, hjd, hk, hc] at h

/-- Witness for C2: a populated session (holding `oldDict`) goes through a
generate whose hosted call fails; the stale Profile is still there. -/
theorem failure_keeps_stale_profile_witness :
    (generateStep ⟨some "key"⟩ (fun _ => "resume") (fun _ => .error ())
        (some [1]) "jd" ⟨some oldDict⟩).state = ⟨some oldDict⟩ :=
  failure_keeps_stale_profile ⟨some "key"⟩ (fun _ => "resume")
    (fun _ => .error ()) (some [1]) "jd" ⟨some oldDict⟩ .inferenceError rfl

/-- C3: with the uploaded file absent or the job description empty, the
generate block makes zero calls to the hosted endpoint (so the prompt is
never built either — it is only assembled inside the invocation path) and
the session state is untouched. -/
theorem no_call_on_incomplete_input (env : Env)
    (extractText : List Nat → String)
    (llm : String → Except Unit (Option JsonValue))
    (uploaded_file : Option (List Nat)) (job_desc : String)
    (st : SessionState)
    (h : uploaded_file = none ∨ job_desc = "") :
    (generateStep env extractText llm uploaded_file job_desc st).llmCalls = 0 ∧
    (generateStep env extractText llm uploaded_file job_desc st).state = st := by
  rcases h with rfl | rfl
  · exact ⟨rfl, rfl⟩
  · cases uploaded_file <;> simp [generateStep]

/-- Witness for C3: no file uploaded, a job description present — zero calls. -/
theorem no_call_on_incomplete_input_witness :
    (generateStep ⟨some "key"⟩ (fun _ => "resume") (fun _ => .ok none) none
        "Looking for a Python backend engineer" ⟨none⟩).llmCalls = 0 ∧
    (generateStep ⟨some "key"⟩ (fun _ => "resume") (fun _ => .ok none) none
        "Looking for a Python backend engineer" ⟨none⟩).state = ⟨none⟩ :=
  no_call_on_incomplete_input ⟨some "key"⟩ (fun _ => "resume")
    (fun _ => .ok none) none "Looking for a Python backend engineer" ⟨none⟩
    (Or.inl rfl)

/-- C7: a successful repeated generate replaces the stored Profile wholesale
in the single assignment of line 101: the new state holds exactly the newly
parsed dict, and it does not depend in any way on the previously stored
Profile (taking two arbitrary prior states gives the same result), so the
old Profile is discarded as a whole and never partially updated — the
embedding is pure, mirroring that the dict is rebuilt by the parser, not
mutated in place. -/
theorem profile_replaced_atomically (env : Env)
    (extractText : List Nat → String)
    (llm : String → Except Unit (Option JsonValue))
    (f : List Nat) (job_desc : String) (st st2 : SessionState)
    (k : String) (v : JsonValue)
    (hjd : job_desc ≠ "") (hk : env.groqApiKey = some k)
    (hv : chainInvoke llm (extractText f) job_desc = .ok v) :
    (generateStep env extractText llm (some f) job_desc st).state = ⟨some v⟩ ∧
    (generateStep env extractText llm (some f) job_desc st).state =
      (generateStep env extractText llm (some f) job_desc st2).state := by
  constructor <;> simp [generateStep, hjd, hk, hv]

/-- Witness for C7: a populated session is regenerated with a stub endpoint
answering `sampleDict`; the stored Profile becomes exactly `sampleDict`,
independently of the prior state. -/
theorem profile_replaced_atomically_witness :
    (generateStep ⟨some "key"⟩ (fun _ => "resume")
        (fun _ => .ok (some sampleDict)) (some [1]) "jd"
        ⟨some oldDict⟩).state = ⟨some sampleDict⟩ ∧
    (generateStep ⟨some "key"⟩ (fun _ => "resume")
        (fun _ => .ok (some sampleDict)) (some [1]) "jd"
        ⟨some oldDict⟩).state =
      (generateStep ⟨some "key"⟩ (fun _ => "resume")
        (fun _ => .ok (some sampleDict)) (some [1]) "jd" ⟨none⟩).state :=
  profile_replaced_atomically ⟨some "key"⟩ (fun _ => "resume")
    (fun _ => .ok (some sampleDict)) [1] "jd" ⟨some oldDict⟩ ⟨none⟩
    "key" sampleDict (by decide) rfl rfl

/-- C8: the generate pipeline adds no nondeterminism of its own: against any
fixed (deterministic) stub endpoint and extractor, pressing generate a second
time with identical inputs reproduces the first result exactly — same stored
Profile dict (hence identical values in all nine fields), same call count,
same failure.  Stated as idempotence of the step on its own output state. -/
theorem generate_deterministic (env : Env)
    (extractText : List Nat → String)
    (llm : String → Except Unit (Option JsonValue))
    (uploaded_file : Option (List Nat)) (job_desc : String)
    (st : SessionState) :
    generateStep env extractText llm uploaded_file job_desc
        (generateStep env extractText llm uploaded_file job_desc st).state =
      generateStep env extractText llm uploaded_file job_desc st := by
  cases uploaded_file with
  | none => rfl
  | some f =>
    by_cases hjd : job_desc = ""
    · simp [generateStep, hjd]
    · cases hk : env.groqApiKey with
      | none => simp [generateStep, hjd, hk]
      | some k =>
        cases hc : chainInvoke llm (extractText f) job_desc with
        | error e2 => simp [generateStep, hjd, hk, hc]
        | ok v => simp [generateStep, hjd, hk, hc]

/-- C9 counterexample: with the credential absent from the environment,
module-level startup still succeeds — there is no fail-fast check at process
start, refuting the claim that the program fails at startup. -/
theorem startup_succeeds_without_credential :
    startup { groqApiKey := none } none = .ok { data := none } := rfl

/-- C9 (amended): startup never fails, whatever the environment; the missing
credential is first detected inside the generate action, where the inference
client construction fails — surfacing a configuration error before any model
call is made (zero calls), rather than at process start. -/
theorem credential_first_checked_at_generate (env : Env)
    (prior : Option SessionState) (extractText : List Nat → String)
    (llm : String → Except Unit (Option JsonValue))
    (f : List Nat) (job_desc : String) (st : SessionState)
    (hkey : env.groqApiKey = none) (hjd : job_desc ≠ "") :
    (∃ st0, startup env prior = .ok st0) ∧
    generateStep env extractText llm (some f) job_desc st
      = ⟨st, 0, some .configError⟩ := by
  constructor
  · cases prior <;> exact ⟨_, rfl⟩
  · simp [generateStep, hjd, hkey]

/-- Witness for the amended C9: empty environment, fresh session, generate
with both inputs present — startup is fine, the generate step reports the
configuration error with zero model calls. -/
theorem credential_first_checked_at_generate_witness :
    (∃ st0, startup { groqApiKey := none } none = .ok st0) ∧
    generateStep { groqApiKey := none } (fun _ => "resume")
        (fun _ => .ok (some sampleDict)) (some [1]) "jd" ⟨none⟩
      = ⟨⟨none⟩, 0, some .configError⟩ :=
  credential_first_checked_at_generate { groqApiKey := none } none
    (fun _ => "resume") (fun _ => .ok (some sampleDict)) [1] "jd" ⟨none⟩
    rfl (by decide)

/-- C10: every successful render writes the document to the single fixed
working-directory path "optimized.pdf", for every profile (hence for every
request and session of one process — the path mentions neither); only the
suggested download name varies with the candidate's name. -/
theorem output_path_fixed (p : OptimizedProfile) :
    (col2Output p).1 = "optimized.pdf" ∧
    (col2Output p).2.1 = p.name ++ "_ATS_Optimized.pdf" ∧
    (col2Output p).1 = (col2Output sampleProfile).1 :=
  ⟨rfl, rfl, rfl⟩
